import Mathlib

/-!
# drone-helm3: the `InitKube` step (`internal/run/initkube.go`)

A shallow embedding of the step that materialises the kubeconfig file, and
theorems about its two operations `Prepare` and `Execute`.

The Go code is stateful in three ways, each made explicit here:

* the receiver `*InitKube` is mutated: both operations return the instance;
* the file system is read and written: a `FileSystem` value is threaded;
* library calls and writes to `i.stderr` happen in an order: every one of
  them is appended to `World.calls`, a ghost log.

The Go standard library is not part of the repository. The operating-system
calls get a small concrete model (`osStat`, `osCreate`, `osWriteFile`, ...)
whose failures are driven by oracles stored in the `FileSystem`; the
`text/template` package is a parameter (`TemplateEngine`).
-/

namespace run

/-! ## Go errors -/

/-- Go `error` values: `errors.New msg`, and `fmt.Errorf (lead ++ "%w") cause`,
which wraps its cause. Errors coming from the library are values of this type too. -/
inductive GoError where
  | errorString (msg : String)
  | wrapError (lead : String) (cause : GoError)
  deriving DecidableEq, Repr

/-- The method `Error()`: the message of an error. A wrapping error prints its
leading text followed by the message of its cause. -/
def GoError.Error : GoError → String
  | .errorString msg => msg
  | .wrapError lead cause => lead ++ cause.Error

/-- The method `Unwrap()` behind `errors.Unwrap`: the wrapped cause, if any. -/
def GoError.Unwrap : GoError → Option GoError
  | .errorString _ => none
  | .wrapError _ cause => some cause

/-! ## Data model -/

/-- The struct `kubeValues` (initkube.go, lines 23-32). -/
structure kubeValues where
  SkipTLSVerify : Bool
  Certificate : String
  APIServer : String
  Namespace : String
  ServiceAccount : String
  Token : String
  KubeConfig : String
  KubeContext : String
  deriving DecidableEq, Repr

/-- Modelled from the spec: the struct `config` embedded in `InitKube` is declared
elsewhere in package `run`. Of its fields the step reads `debug`; its `stderr`
writer is the diagnostics stream, represented by the `fprint` entries of
`World.calls`. -/
structure config where
  debug : Bool
  deriving DecidableEq, Repr

/-- Modelled from the spec: `env.Config`, the process-wide configuration, is declared
in package `env`. These are the fields `NewInitKube` and `newConfig` read. -/
structure envConfig where
  Debug : Bool
  SkipTLSVerify : Bool
  Certificate : String
  APIServer : String
  Namespace : String
  ServiceAccount : String
  KubeToken : String
  KubeConfig : String
  KubeContext : String
  deriving DecidableEq, Repr

/-- A value of type `*os.File`: the nil pointer, or an open descriptor on a path. -/
inductive OsFile where
  | nil
  | fd (name : String)
  deriving DecidableEq, Repr

/-- The struct `InitKube` (lines 14-21). `T` is the type of parsed templates;
`template = none` is the nil pointer and `configFile = none` the nil interface.
The only `io.WriteCloser` the step ever stores is the `*os.File` of `os.Create`. -/
structure InitKube (T : Type) where
  config : config
  templateFilename : String
  configFilename : String
  template : Option T
  configFile : Option OsFile
  values : kubeValues

/-! ## The world outside the step -/

/-- What a path names. -/
inductive Node where
  | absent
  | file (data : String)
  | dir
  deriving DecidableEq, Repr

/-- The file system: what each path names, and for each path the error (if any)
with which reading it, opening it for writing, writing to it and closing it fail. -/
structure FileSystem where
  node : String → Node
  readErr : String → Option GoError
  openErr : String → Option GoError
  writeErr : String → Option GoError
  closeErr : String → Option GoError

/-- Replace what one path names. -/
def FileSystem.put (fs : FileSystem) (name : String) (n : Node) : FileSystem :=
  { fs with node := fun p => if p = name then n else fs.node p }

/-- One call that leaves the step: a write to `i.stderr` or a library call. -/
inductive Call where
  | fprint (text : String)
  | parseFiles (name : String)
  | stat (name : String)
  | create (name : String)
  | writeFile (name : String) (data : String)
  | templateExecute (f : OsFile) (values : kubeValues)
  | close (f : OsFile)
  deriving DecidableEq, Repr

/-- The state outside the instance: the file system and the log of calls, oldest first. -/
structure World where
  fs : FileSystem
  calls : List Call

/-- Record a call. -/
def World.call (w : World) (c : Call) : World :=
  { w with calls := w.calls ++ [c] }

/-- The call `fmt.Fprint(i.stderr, text)` (and `Fprintf`, once formatted). -/
def World.fprint (w : World) (text : String) : World :=
  w.call (.fprint text)

/-- The texts among a list of calls that went to the diagnostics stream. -/
def stderrOf : List Call → List String
  | [] => []
  | .fprint text :: cs => text :: stderrOf cs
  | _ :: cs => stderrOf cs

/-- Everything written to the diagnostics stream so far. -/
def World.stderr (w : World) : List String :=
  stderrOf w.calls

/-! ## The library calls -/

/-- The call `os.Stat(name)`, reduced to its error: non-nil when nothing is there. -/
def osStat (fs : FileSystem) (name : String) : Option GoError :=
  match fs.node name with
  | .absent => some (.errorString ("stat " ++ name ++ ": no such file or directory"))
  | _ => none

/-- Opening with `O_WRONLY|O_CREATE|O_TRUNC`: fails when the oracle says so or the
path is a directory; otherwise the path names an empty regular file afterwards. -/
def openTrunc (fs : FileSystem) (name : String) : Except GoError FileSystem :=
  match fs.openErr name with
  | some e => .error e
  | none =>
    match fs.node name with
    | .dir => .error (.errorString ("open " ++ name ++ ": is a directory"))
    | _ => .ok (fs.put name (.file ""))

/-- The call `os.Create(name)`; on success the `*os.File` is `OsFile.fd name`. -/
def osCreate (fs : FileSystem) (name : String) : Except GoError FileSystem :=
  openTrunc fs name

/-- The method `(*os.File).Write`: appends to the file. The nil file gives `os.ErrInvalid`. -/
def fileWrite (fs : FileSystem) (f : OsFile) (data : String) : FileSystem × Option GoError :=
  match f with
  | .nil => (fs, some (.errorString "invalid argument"))
  | .fd name =>
    match fs.writeErr name with
    | some e => (fs, some e)
    | none =>
      match fs.node name with
      | .file old => (fs.put name (.file (old ++ data)), none)
      | _ => (fs.put name (.file data), none)

/-- The method `(*os.File).Close`, reduced to its error. -/
def fileClose (fs : FileSystem) (f : OsFile) : Option GoError :=
  match f with
  | .nil => some (.errorString "invalid argument")
  | .fd name => fs.closeErr name

/-- The call `os.WriteFile(name, data, 0644)`: open with truncation, write, close;
the write error wins over the close error. -/
def osWriteFile (fs : FileSystem) (name data : String) : FileSystem × Option GoError :=
  match openTrunc fs name with
  | .error e => (fs, some e)
  | .ok fs1 =>
    let r := fileWrite fs1 (.fd name) data
    let cerr := fileClose r.1 (.fd name)
    (r.1, if r.2.isSome then r.2 else cerr)

/-- The package `text/template`, as far as the step uses it: `parse name text` parses
the text of the named file, and `render t values` gives the pieces of output the
template emits, in order, and the error (if any) at which rendering stopped. -/
structure TemplateEngine (T : Type) where
  parse : String → String → Except GoError T
  render : T → kubeValues → List String × Option GoError

/-- The call `template.ParseFiles(name)`: read the file, then parse it. -/
def templateParseFiles {T : Type} (eng : TemplateEngine T) (fs : FileSystem) (name : String) :
    Except GoError T :=
  match fs.readErr name with
  | some e => .error e
  | none =>
    match fs.node name with
    | .absent => .error (.errorString ("open " ++ name ++ ": no such file or directory"))
    | .dir => .error (.errorString ("read " ++ name ++ ": is a directory"))
    | .file text => eng.parse name text

/-- Write the pieces of a rendering one after the other; the first failing write ends
the rendering with that error, otherwise the rendering ends with its own result. -/
def writeChunks (fs : FileSystem) (f : OsFile) (rerr : Option GoError) :
    List String → FileSystem × Option GoError
  | [] => (fs, rerr)
  | c :: cs =>
    match fileWrite fs f c with
    | (fs1, some e) => (fs1, some e)
    | (fs1, none) => writeChunks fs1 f rerr cs

/-- The method `(*template.Template).Execute(wr, values)` on a non-nil template. -/
def templateExecute {T : Type} (eng : TemplateEngine T) (fs : FileSystem) (t : T) (f : OsFile)
    (values : kubeValues) : FileSystem × Option GoError :=
  writeChunks fs f (eng.render t values).2 (eng.render t values).1

/-! ## The step -/

/-- How a call of `Execute` ends: it returns an error value (`none` is nil), or it
panics on a nil template or a nil writer. -/
inductive Outcome where
  | ret (err : Option GoError)
  | panic
  deriving DecidableEq, Repr

/-- The function `NewInitKube` (lines 35-51). `newConfig` is declared elsewhere in the
package and is taken as a parameter. -/
def NewInitKube {T : Type} (newConfig : envConfig → config) (cfg : envConfig)
    (templateFile configFile : String) : InitKube T :=
  { config := newConfig cfg
    values :=
      { SkipTLSVerify := cfg.SkipTLSVerify
        Certificate := cfg.Certificate
        APIServer := cfg.APIServer
        Namespace := cfg.Namespace
        ServiceAccount := cfg.ServiceAccount
        Token := cfg.KubeToken
        KubeConfig := cfg.KubeConfig
        KubeContext := cfg.KubeContext }
    templateFilename := templateFile
    configFilename := configFile
    template := none
    configFile := none }

/-- Lines 83-85 of `Prepare`: an empty `ServiceAccount` becomes `"helm"`. -/
def defaultServiceAccount {T : Type} (i : InitKube T) : InitKube T :=
  if i.values.ServiceAccount = "" then
    { i with values := { i.values with ServiceAccount := "helm" } }
  else i

/-- Lines 95-103 of `Prepare`: the debug output before the file is opened. -/
def debugCreate (debug : Bool) (configFilename : String) (w : World) : World :=
  if debug then
    let w1 := w.call (.stat configFilename)
    let w2 :=
      if (osStat w1.fs configFilename).isSome then w1.fprint "creating "
      else w1.fprint "truncating "
    w2.fprint ("kubeconfig file at " ++ configFilename ++ "\n")
  else w

/-- The method `InitKube.Prepare` (lines 72-113): the returned error (`none` is nil),
the instance and the world afterwards. -/
def Prepare {T : Type} (eng : TemplateEngine T) (i : InitKube T) (w : World) :
    Option GoError × InitKube T × World :=
  if i.values.KubeConfig = "" then
    if i.values.APIServer = "" then
      (some (.errorString "an API Server is needed to deploy"), i, w)
    else if i.values.Token = "" then
      (some (.errorString "token is needed to deploy"), i, w)
    else
      let i1 := defaultServiceAccount i
      let w1 :=
        if i1.config.debug then
          w.fprint ("loading kubeconfig template from " ++ i1.templateFilename ++ "\n")
        else w
      let w2 := w1.call (.parseFiles i1.templateFilename)
      match templateParseFiles eng w2.fs i1.templateFilename with
      | .error err =>
        (some (.wrapError "could not load kubeconfig template: " err),
          { i1 with template := none }, w2)
      | .ok t =>
        let i2 := { i1 with template := some t }
        let w3 := debugCreate i2.config.debug i2.configFilename w2
        let w4 := w3.call (.create i2.configFilename)
        match osCreate w4.fs i2.configFilename with
        | .error err =>
          (some (.wrapError "could not open kubeconfig file for writing: " err),
            { i2 with configFile := some .nil }, w4)
        | .ok fs5 =>
          (none, { i2 with configFile := some (.fd i2.configFilename) }, { w4 with fs := fs5 })
  else
    (none, i,
      w.fprint ("Kubeconfig is present and then will be written in " ++ i.configFilename ++ "\n"))

/-- The method `InitKube.Execute` (lines 54-69). In the templated branch the deferred
`Close` runs after the rendering, and its error is dropped. -/
def Execute {T : Type} (eng : TemplateEngine T) (i : InitKube T) (w : World) :
    Outcome × InitKube T × World :=
  let w1 :=
    if i.config.debug then
      w.fprint ("writing kubeconfig file to " ++ i.configFilename ++ "\n")
    else w
  if i.values.KubeConfig ≠ "" then
    let w2 :=
      if i.config.debug then w1.fprint "Writing values of Kubeconfig to file" else w1
    let w3 := w2.call (.writeFile i.configFilename i.values.KubeConfig)
    (.ret none, i, { w3 with fs := (osWriteFile w3.fs i.configFilename i.values.KubeConfig).1 })
  else
    match i.configFile with
    | none => (.panic, i, w1)
    | some f =>
      match i.template with
      | none =>
        ((.panic : Outcome), i, (w1.call (.templateExecute f i.values)).call (.close f))
      | some t =>
        let w2 := w1.call (.templateExecute f i.values)
        let r := templateExecute eng w2.fs t f i.values
        let w3 := ({ w2 with fs := r.1 } : World).call (.close f)
        (.ret r.2, i, w3)

/-! ## Concrete data for the examples -/

/-- A rendering oracle for the examples: the text `"bad"` does not parse, any other
text parses to itself; the template `"missing"` fails to render, any other template
emits its text followed by the server, the token and the service account. -/
def sampleEngine : TemplateEngine String where
  parse := fun name text =>
    if text = "bad" then .error (.errorString ("template: " ++ name ++ ": unexpected text"))
    else .ok text
  render := fun t values =>
    if t = "missing" then ([], some (.errorString "template: no such field"))
    else ([t, values.APIServer, values.Token, values.ServiceAccount], none)

/-- A file system for the examples: `kube.tpl` holds a template, `bad.tpl` one that does
not parse, `/ro/config` cannot be opened for writing, closing `config` reports an error. -/
def sampleFS : FileSystem where
  node := fun p =>
    if p = "kube.tpl" then .file "server: " else if p = "bad.tpl" then .file "bad" else .absent
  readErr := fun _ => none
  openErr := fun p =>
    if p = "/ro/config" then some (.errorString "open /ro/config: permission denied") else none
  writeErr := fun _ => none
  closeErr := fun p => if p = "config" then some (.errorString "close config: input/output error") else none

/-- The world of the examples: `sampleFS`, and nothing called so far. -/
def sampleWorld : World :=
  { fs := sampleFS, calls := [] }

/-- Connection values for the examples: templated mode, no service account. -/
def sampleValues : kubeValues :=
  { SkipTLSVerify := false
    Certificate := ""
    APIServer := "https://k8s.example:6443"
    Namespace := ""
    ServiceAccount := ""
    Token := "abc"
    KubeConfig := ""
    KubeContext := "" }

/-- An instance for the examples, as `NewInitKube` builds it, debug output off. -/
def sampleStep (values : kubeValues) (configFilename : String) : InitKube String :=
  { config := { debug := false }
    templateFilename := "kube.tpl"
    configFilename := configFilename
    template := none
    configFile := none
    values := values }

/-! ## Lemmas shared by the theorems -/

theorem stderrOf_append (a b : List Call) : stderrOf (a ++ b) = stderrOf a ++ stderrOf b := by
  induction a with
  | nil => rfl
  | cons c cs ih => cases c <;> simp [stderrOf, ih]

@[simp] theorem defaultServiceAccount_config {T : Type} (i : InitKube T) :
    (defaultServiceAccount i).config = i.config := by
  unfold defaultServiceAccount; split <;> rfl

@[simp] theorem defaultServiceAccount_templateFilename {T : Type} (i : InitKube T) :
    (defaultServiceAccount i).templateFilename = i.templateFilename := by
  unfold defaultServiceAccount; split <;> rfl

@[simp] theorem defaultServiceAccount_configFilename {T : Type} (i : InitKube T) :
    (defaultServiceAccount i).configFilename = i.configFilename := by
  unfold defaultServiceAccount; split <;> rfl

@[simp] theorem defaultServiceAccount_template {T : Type} (i : InitKube T) :
    (defaultServiceAccount i).template = i.template := by
  unfold defaultServiceAccount; split <;> rfl

@[simp] theorem defaultServiceAccount_configFile {T : Type} (i : InitKube T) :
    (defaultServiceAccount i).configFile = i.configFile := by
  unfold defaultServiceAccount; split <;> rfl

@[simp] theorem defaultServiceAccount_KubeConfig {T : Type} (i : InitKube T) :
    (defaultServiceAccount i).values.KubeConfig = i.values.KubeConfig := by
  unfold defaultServiceAccount; split <;> rfl

@[simp] theorem defaultServiceAccount_APIServer {T : Type} (i : InitKube T) :
    (defaultServiceAccount i).values.APIServer = i.values.APIServer := by
  unfold defaultServiceAccount; split <;> rfl

@[simp] theorem defaultServiceAccount_Token {T : Type} (i : InitKube T) :
    (defaultServiceAccount i).values.Token = i.values.Token := by
  unfold defaultServiceAccount; split <;> rfl

@[simp] theorem call_fs (w : World) (c : Call) : (w.call c).fs = w.fs := rfl

@[simp] theorem call_calls (w : World) (c : Call) : (w.call c).calls = w.calls ++ [c] := rfl

@[simp] theorem fprint_fs (w : World) (text : String) : (w.fprint text).fs = w.fs := rfl

@[simp] theorem fprint_calls (w : World) (text : String) :
    (w.fprint text).calls = w.calls ++ [Call.fprint text] := rfl

@[simp] theorem debugCreate_fs (debug : Bool) (name : String) (w : World) :
    (debugCreate debug name w).fs = w.fs := by
  unfold debugCreate; split
  · simp only []; split <;> rfl
  · rfl

/-- The calls `debugCreate` adds: none without the debug flag, otherwise a `stat`
and two writes to the diagnostics stream. -/
theorem debugCreate_calls (debug : Bool) (name : String) (w : World) :
    ∃ cs, (debugCreate debug name w).calls = w.calls ++ cs ∧
      (debug = false → cs = []) ∧
      ∀ c ∈ cs, c = Call.stat name ∨ ∃ text, c = Call.fprint text := by
  unfold debugCreate
  split
  · rename_i hd
    simp only []
    split
    · exact ⟨[.stat name, .fprint "creating ", .fprint ("kubeconfig file at " ++ name ++ "\n")],
        by simp, by simp [hd], by simp⟩
    · exact ⟨[.stat name, .fprint "truncating ", .fprint ("kubeconfig file at " ++ name ++ "\n")],
        by simp, by simp [hd], by simp⟩
  · exact ⟨[], by simp, by simp, by simp⟩

/-- What a successful `Prepare` in templated mode has done: both required fields were
present, the template parsed, the destination was opened, and the instance and the
world are the ones described. The calls made are diagnostics, `stat` and `ParseFiles`,
followed by the `os.Create` of the destination. -/
theorem Prepare_templated_ok {T : Type} (eng : TemplateEngine T) (i i' : InitKube T)
    (w w' : World) (hk : i.values.KubeConfig = "") (hp : Prepare eng i w = (none, i', w')) :
    i.values.APIServer ≠ "" ∧ i.values.Token ≠ "" ∧
    ∃ t fs5, templateParseFiles eng w.fs i.templateFilename = .ok t ∧
      osCreate w.fs i.configFilename = .ok fs5 ∧
      i' = { config := i.config
             templateFilename := i.templateFilename
             configFilename := i.configFilename
             template := some t
             configFile := some (.fd i.configFilename)
             values := (defaultServiceAccount i).values } ∧
      w'.fs = fs5 ∧
      ∃ cs, w'.calls = w.calls ++ cs ++ [Call.create i.configFilename] ∧
        (i.config.debug = false → cs = [Call.parseFiles i.templateFilename]) ∧
        ∀ c ∈ cs, c = Call.parseFiles i.templateFilename ∨ c = Call.stat i.configFilename ∨
          ∃ text, c = Call.fprint text := by
  unfold Prepare at hp
  simp only [hk, if_true] at hp
  split at hp
  · simp at hp
  rename_i ha
  split at hp
  · simp at hp
  rename_i ht
  refine ⟨ha, ht, ?_⟩
  simp only [defaultServiceAccount_config, defaultServiceAccount_templateFilename,
    defaultServiceAccount_configFilename, call_fs] at hp
  split at hp
  · simp at hp
  rename_i t hparse
  simp only [debugCreate_fs, call_fs] at hp
  split at hp
  · simp at hp
  rename_i fs5 hcreate
  obtain ⟨cs, hcs, hcs0, hcs1⟩ := debugCreate_calls i.config.debug i.configFilename
    ((if i.config.debug = true then
        w.fprint ("loading kubeconfig template from " ++ i.templateFilename ++ "\n")
      else w).call (Call.parseFiles i.templateFilename))
  have hfs : (if i.config.debug = true then
        w.fprint ("loading kubeconfig template from " ++ i.templateFilename ++ "\n")
      else w).fs = w.fs := by split <;> rfl
  rw [hfs] at hparse hcreate
  simp only [Prod.mk.injEq, true_and] at hp
  obtain ⟨hi, hw⟩ := hp
  refine ⟨t, fs5, hparse, hcreate, hi.symm, by rw [← hw], ?_⟩
  by_cases hd : i.config.debug = true
  · refine ⟨[Call.fprint ("loading kubeconfig template from " ++ i.templateFilename ++ "\n"),
      Call.parseFiles i.templateFilename] ++ cs, ?_, ?_, ?_⟩
    · rw [← hw]; simp only [hd, if_true] at hcs; simp [hcs, hd]
    · simp [hd]
    · intro c hc
      simp only [List.mem_append, List.mem_cons, List.mem_singleton, List.not_mem_nil,
        or_false] at hc
      rcases hc with (rfl | rfl) | hc
      · exact Or.inr (Or.inr ⟨_, rfl⟩)
      · exact Or.inl rfl
      · rcases hcs1 c hc with h | h
        · exact Or.inr (Or.inl h)
        · exact Or.inr (Or.inr h)
  · have hd0 : i.config.debug = false := by simpa using hd
    refine ⟨[Call.parseFiles i.templateFilename] ++ cs, ?_, ?_, ?_⟩
    · rw [← hw]; simp only [hd0, Bool.false_eq_true, if_false] at hcs; simp [hcs, hd0]
    · intro _; simp [hcs0 hd0]
    · intro c hc
      simp only [List.mem_append, List.mem_singleton] at hc
      rcases hc with rfl | hc
      · exact Or.inl rfl
      · rcases hcs1 c hc with h | h
        · exact Or.inr (Or.inl h)
        · exact Or.inr (Or.inr h)

@[simp] theorem put_node_self (fs : FileSystem) (name : String) (n : Node) :
    (fs.put name n).node name = n := by
  simp [FileSystem.put]

@[simp] theorem put_writeErr (fs : FileSystem) (name : String) (n : Node) :
    (fs.put name n).writeErr = fs.writeErr := rfl

/-- When `os.WriteFile` reports no error, the path names a file holding exactly the data. -/
theorem osWriteFile_ok (fs : FileSystem) (name data : String)
    (h : (osWriteFile fs name data).2 = none) :
    (osWriteFile fs name data).1.node name = .file data := by
  unfold osWriteFile at h ⊢
  cases hopen : openTrunc fs name with
  | error e => rw [hopen] at h; simp at h
  | ok fs1 =>
    have hnode : fs1.node name = .file "" ∧ fs1.writeErr = fs.writeErr := by
      unfold openTrunc at hopen
      split at hopen
      · simp at hopen
      · split at hopen
        · simp at hopen
        · simp only [Except.ok.injEq] at hopen
          subst hopen; simp
    rw [hopen] at h
    simp only [] at h ⊢
    unfold fileWrite at h ⊢
    simp only [hnode.1] at h ⊢
    cases hw : fs1.writeErr name with
    | some e => rw [hw] at h; simp at h
    | none => simp

/-- In literal mode `Prepare` returns nil, keeps the instance, and only writes its one
line to the diagnostics stream. -/
theorem Prepare_literal {T : Type} (eng : TemplateEngine T) (i : InitKube T) (w : World)
    (hk : i.values.KubeConfig ≠ "") :
    Prepare eng i w = (none, i,
      w.fprint ("Kubeconfig is present and then will be written in " ++ i.configFilename ++ "\n")) := by
  simp [Prepare, hk]

/-- In literal mode `Execute` returns nil and keeps the instance; the world afterwards
has the optional diagnostics, the `os.WriteFile` call, and the file system it leaves. -/
theorem Execute_literal {T : Type} (eng : TemplateEngine T) (i : InitKube T) (w : World)
    (hk : i.values.KubeConfig ≠ "") :
    Execute eng i w = (.ret none, i,
      { fs := (osWriteFile w.fs i.configFilename i.values.KubeConfig).1
        calls := w.calls ++
          (if i.config.debug then
            [Call.fprint ("writing kubeconfig file to " ++ i.configFilename ++ "\n"),
              Call.fprint "Writing values of Kubeconfig to file"]
           else []) ++ [Call.writeFile i.configFilename i.values.KubeConfig] }) := by
  unfold Execute
  by_cases hd : i.config.debug = true <;> simp [hk, hd]

/-- In templated mode, on an instance holding a template and a writer, `Execute` renders
into the writer, closes it, and returns the result of the rendering. -/
theorem Execute_templated {T : Type} (eng : TemplateEngine T) (i : InitKube T) (w : World)
    (t : T) (f : OsFile) (hk : i.values.KubeConfig = "") (ht : i.template = some t)
    (hf : i.configFile = some f) :
    Execute eng i w = (.ret (templateExecute eng w.fs t f i.values).2, i,
      { fs := (templateExecute eng w.fs t f i.values).1
        calls := w.calls ++
          (if i.config.debug then
            [Call.fprint ("writing kubeconfig file to " ++ i.configFilename ++ "\n")]
           else []) ++ [Call.templateExecute f i.values, Call.close f] }) := by
  unfold Execute
  by_cases hd : i.config.debug = true <;> simp [hk, hd, ht, hf, World.call]

/-- With both required fields present, the values `Prepare` leaves in the instance are
those after the service-account default, however the later steps end. -/
theorem Prepare_templated_values {T : Type} (eng : TemplateEngine T) (i : InitKube T)
    (w : World) (hk : i.values.KubeConfig = "") (ha : i.values.APIServer ≠ "")
    (ht : i.values.Token ≠ "") :
    (Prepare eng i w).2.1.values = (defaultServiceAccount i).values := by
  unfold Prepare
  simp only [hk, ha, ht, if_true, if_false]
  split
  · rfl
  · split <;> rfl

/-- With both required fields present and a template that does not load, `Prepare`
wraps the cause, and the world differs from the one before only by the optional
diagnostic and the `ParseFiles` call. -/
theorem Prepare_templated_parse_error {T : Type} (eng : TemplateEngine T) (i : InitKube T)
    (w : World) (e : GoError) (hk : i.values.KubeConfig = "") (ha : i.values.APIServer ≠ "")
    (ht : i.values.Token ≠ "")
    (hparse : templateParseFiles eng w.fs i.templateFilename = .error e) :
    (Prepare eng i w).1 = some (.wrapError "could not load kubeconfig template: " e) ∧
      (Prepare eng i w).2.2.fs = w.fs ∧
      (Prepare eng i w).2.2.calls = w.calls ++
        (if i.config.debug then
          [Call.fprint ("loading kubeconfig template from " ++ i.templateFilename ++ "\n")]
         else []) ++ [Call.parseFiles i.templateFilename] := by
  have hfs : (if i.config.debug = true then
        w.fprint ("loading kubeconfig template from " ++ i.templateFilename ++ "\n")
      else w).fs = w.fs := by split <;> rfl
  unfold Prepare
  simp only [hk, ha, ht, if_true, if_false, defaultServiceAccount_config,
    defaultServiceAccount_templateFilename, call_fs, hfs, hparse]
  refine ⟨trivial, trivial, ?_⟩
  by_cases hd : i.config.debug = true <;> simp [hd]

/-- With both required fields present and a template that loads, `Prepare` ends as
`os.Create` on the destination does: nil on success, the wrapped cause on failure. -/
theorem Prepare_templated_create {T : Type} (eng : TemplateEngine T) (i : InitKube T)
    (w : World) (t : T) (hk : i.values.KubeConfig = "") (ha : i.values.APIServer ≠ "")
    (ht : i.values.Token ≠ "")
    (hparse : templateParseFiles eng w.fs i.templateFilename = .ok t) :
    (Prepare eng i w).1 =
      match osCreate w.fs i.configFilename with
      | .error e => some (.wrapError "could not open kubeconfig file for writing: " e)
      | .ok _ => none := by
  have hfs : (if i.config.debug = true then
        w.fprint ("loading kubeconfig template from " ++ i.templateFilename ++ "\n")
      else w).fs = w.fs := by split <;> rfl
  unfold Prepare
  simp only [hk, ha, ht, if_true, if_false, defaultServiceAccount_config,
    defaultServiceAccount_templateFilename, defaultServiceAccount_configFilename, call_fs,
    debugCreate_fs, hfs, hparse]
  cases osCreate w.fs i.configFilename <;> rfl

/-- The values `Prepare` leaves are the values it found, or those with the empty
`ServiceAccount` replaced by "helm". -/
theorem Prepare_values_cases {T : Type} (eng : TemplateEngine T) (i : InitKube T) (w : World) :
    (Prepare eng i w).2.1.values = i.values ∨
      (i.values.ServiceAccount = "" ∧
        (Prepare eng i w).2.1.values = { i.values with ServiceAccount := "helm" }) := by
  by_cases hk : i.values.KubeConfig = ""
  · by_cases ha : i.values.APIServer = ""
    · left; simp [Prepare, hk, ha]
    · by_cases ht : i.values.Token = ""
      · left; simp [Prepare, hk, ha, ht]
      · rw [Prepare_templated_values eng i w hk ha ht]
        by_cases hs : i.values.ServiceAccount = ""
        · right; exact ⟨hs, by simp [defaultServiceAccount, hs]⟩
        · left; simp [defaultServiceAccount, hs]
  · left; rw [Prepare_literal eng i w hk]

/-- The instance `Execute` returns is the instance it was called on. -/
theorem Execute_instance {T : Type} (eng : TemplateEngine T) (i : InitKube T) (w : World) :
    (Execute eng i w).2.1 = i := by
  unfold Execute
  simp only []
  split
  · rfl
  · split
    · rfl
    · split <;> rfl

/-- Without the debug flag `Execute` writes nothing to the diagnostics stream, in
either mode and however it ends. -/
theorem Execute_stderr_without_debug {T : Type} (eng : TemplateEngine T) (i : InitKube T)
    (w : World) (hd : i.config.debug = false) :
    (Execute eng i w).2.2.stderr = w.stderr := by
  unfold Execute World.stderr
  simp only [hd, Bool.false_eq_true, if_false]
  split
  · simp [stderrOf_append, stderrOf]
  · split
    · rfl
    · split <;> simp [stderrOf_append, stderrOf, World.call]

/-- Without the debug flag `Prepare` in templated mode writes nothing to the
diagnostics stream, however it ends. -/
theorem Prepare_templated_stderr_without_debug {T : Type} (eng : TemplateEngine T)
    (i : InitKube T) (w : World) (hd : i.config.debug = false)
    (hk : i.values.KubeConfig = "") :
    (Prepare eng i w).2.2.stderr = w.stderr := by
  unfold Prepare World.stderr
  simp only [hk, if_true, defaultServiceAccount_config, hd, Bool.false_eq_true, if_false,
    debugCreate]
  split
  · rfl
  · split
    · rfl
    · split
      · simp [stderrOf_append, stderrOf]
      · split <;> simp [stderrOf_append, stderrOf, World.call]

/-! ## Theorems -/

/-- C1: in templated mode (empty `KubeConfig`) with an empty `APIServer`, `Prepare`
returns a non-nil error whose message is exactly "an API Server is needed to deploy",
whatever the other fields, the debug flag, the file names and the world are. -/
theorem Prepare_missing_APIServer {T : Type} (eng : TemplateEngine T) (i : InitKube T)
    (w : World) (hk : i.values.KubeConfig = "") (ha : i.values.APIServer = "") :
    ∃ e, (Prepare eng i w).1 = some e ∧ e.Error = "an API Server is needed to deploy" := by
  refine ⟨.errorString "an API Server is needed to deploy", ?_, rfl⟩
  simp [Prepare, hk, ha]

theorem Prepare_missing_APIServer_witness :
    ∃ e, (Prepare sampleEngine
        (sampleStep { sampleValues with APIServer := "", ServiceAccount := "deployer" } "config")
        sampleWorld).1 = some e ∧ e.Error = "an API Server is needed to deploy" :=
  Prepare_missing_APIServer sampleEngine _ sampleWorld rfl rfl

/-- C2: in templated mode with a non-empty `APIServer` and an empty `Token`, `Prepare`
returns a non-nil error whose message is exactly "token is needed to deploy". -/
theorem Prepare_missing_Token {T : Type} (eng : TemplateEngine T) (i : InitKube T)
    (w : World) (hk : i.values.KubeConfig = "") (ha : i.values.APIServer ≠ "")
    (ht : i.values.Token = "") :
    ∃ e, (Prepare eng i w).1 = some e ∧ e.Error = "token is needed to deploy" := by
  refine ⟨.errorString "token is needed to deploy", ?_, rfl⟩
  simp [Prepare, hk, ha, ht]

theorem Prepare_missing_Token_witness :
    ∃ e, (Prepare sampleEngine (sampleStep { sampleValues with Token := "" } "config")
        sampleWorld).1 = some e ∧ e.Error = "token is needed to deploy" :=
  Prepare_missing_Token sampleEngine _ sampleWorld rfl (by decide) rfl

/-- C5: in templated mode with `APIServer` or `Token` empty, `Prepare` returns its
missing-field error and nothing else happens: the world afterwards is the world before
(same file system, no call made, so the template is not read and the destination is
neither created nor truncated) and the instance is returned unchanged. -/
theorem Prepare_missing_field_frame {T : Type} (eng : TemplateEngine T) (i : InitKube T)
    (w : World) (hk : i.values.KubeConfig = "")
    (hm : i.values.APIServer = "" ∨ i.values.Token = "") :
    ∃ e, Prepare eng i w = (some e, i, w) ∧
      (e.Error = "an API Server is needed to deploy" ∨ e.Error = "token is needed to deploy") := by
  by_cases ha : i.values.APIServer = ""
  · exact ⟨.errorString "an API Server is needed to deploy", by simp [Prepare, hk, ha], Or.inl rfl⟩
  · have ht : i.values.Token = "" := hm.resolve_left ha
    exact ⟨.errorString "token is needed to deploy", by simp [Prepare, hk, ha, ht], Or.inr rfl⟩

theorem Prepare_missing_field_frame_witness :
    ∃ e, Prepare sampleEngine (sampleStep { sampleValues with APIServer := "" } "config")
        sampleWorld
        = (some e, sampleStep { sampleValues with APIServer := "" } "config", sampleWorld) ∧
      (e.Error = "an API Server is needed to deploy" ∨ e.Error = "token is needed to deploy") :=
  Prepare_missing_field_frame sampleEngine _ sampleWorld rfl (Or.inl rfl)

/-- C6: in literal mode (non-empty `KubeConfig`) `Execute` returns nil in every world,
hence also in those where `os.WriteFile` reports an error: that error is dropped. -/
theorem Execute_literal_returns_nil {T : Type} (eng : TemplateEngine T) (i : InitKube T)
    (w : World) (hk : i.values.KubeConfig ≠ "") :
    (Execute eng i w).1 = .ret none := by
  simp [Execute, hk]

theorem Execute_literal_returns_nil_witness :
    (osWriteFile sampleWorld.fs "/ro/config" "apiVersion: v1").2
        = some (.errorString "open /ro/config: permission denied") ∧
      (Execute sampleEngine
        (sampleStep { sampleValues with KubeConfig := "apiVersion: v1" } "/ro/config")
        sampleWorld).1 = .ret none :=
  ⟨by decide,
    Execute_literal_returns_nil sampleEngine
      (sampleStep { sampleValues with KubeConfig := "apiVersion: v1" } "/ro/config")
      sampleWorld (by decide)⟩

/-- C3, as stated, fails: a literal configuration and a destination that cannot be
opened for writing. `Prepare` and `Execute` both return nil, and afterwards the
destination does not hold the configuration: no file is there at all. -/
theorem literal_write_not_guaranteed :
    (Prepare sampleEngine
        (sampleStep { sampleValues with KubeConfig := "apiVersion: v1" } "/ro/config")
        sampleWorld).1 = none ∧
      (Execute sampleEngine
        (Prepare sampleEngine
          (sampleStep { sampleValues with KubeConfig := "apiVersion: v1" } "/ro/config")
          sampleWorld).2.1
        (Prepare sampleEngine
          (sampleStep { sampleValues with KubeConfig := "apiVersion: v1" } "/ro/config")
          sampleWorld).2.2).2.2.fs.node "/ro/config" = Node.absent ∧
      (Execute sampleEngine
        (Prepare sampleEngine
          (sampleStep { sampleValues with KubeConfig := "apiVersion: v1" } "/ro/config")
          sampleWorld).2.1
        (Prepare sampleEngine
          (sampleStep { sampleValues with KubeConfig := "apiVersion: v1" } "/ro/config")
          sampleWorld).2.2).2.2.fs.node "/ro/config" ≠ Node.file "apiVersion: v1" := by
  refine ⟨by decide, by decide, by decide⟩

/-- C3, amended: in literal mode, whatever the other fields are (`APIServer` and
`Token` may be empty), `Prepare` returns nil, and in every world in which the
`os.WriteFile` call of `Execute` reports no error, after `Prepare` and `Execute` the
destination is a file whose contents are exactly `values.KubeConfig`. -/
theorem literal_write_exact {T : Type} (eng : TemplateEngine T) (i : InitKube T) (w : World)
    (hk : i.values.KubeConfig ≠ "")
    (hw : (osWriteFile w.fs i.configFilename i.values.KubeConfig).2 = none) :
    (Prepare eng i w).1 = none ∧
      (Execute eng (Prepare eng i w).2.1 (Prepare eng i w).2.2).1 = .ret none ∧
      (Execute eng (Prepare eng i w).2.1 (Prepare eng i w).2.2).2.2.fs.node i.configFilename
        = .file i.values.KubeConfig := by
  have hp := Prepare_literal eng i w hk
  refine ⟨by rw [hp], ?_, ?_⟩
  · rw [hp]
    show (Execute eng i _).1 = _
    rw [Execute_literal eng i _ hk]
  · rw [hp]
    show (Execute eng i _).2.2.fs.node i.configFilename = _
    rw [Execute_literal eng i _ hk]
    exact osWriteFile_ok _ _ _ hw

theorem literal_write_exact_witness :
    (Prepare sampleEngine
        (sampleStep { sampleValues with
          KubeConfig := "apiVersion: v1", APIServer := "", Token := "" } "kubeconfig")
        sampleWorld).1 = none ∧
      (Execute sampleEngine
        (Prepare sampleEngine
          (sampleStep { sampleValues with
            KubeConfig := "apiVersion: v1", APIServer := "", Token := "" } "kubeconfig")
          sampleWorld).2.1
        (Prepare sampleEngine
          (sampleStep { sampleValues with
            KubeConfig := "apiVersion: v1", APIServer := "", Token := "" } "kubeconfig")
          sampleWorld).2.2).1 = .ret none ∧
      (Execute sampleEngine
        (Prepare sampleEngine
          (sampleStep { sampleValues with
            KubeConfig := "apiVersion: v1", APIServer := "", Token := "" } "kubeconfig")
          sampleWorld).2.1
        (Prepare sampleEngine
          (sampleStep { sampleValues with
            KubeConfig := "apiVersion: v1", APIServer := "", Token := "" } "kubeconfig")
          sampleWorld).2.2).2.2.fs.node "kubeconfig" = .file "apiVersion: v1" :=
  literal_write_exact sampleEngine
    (sampleStep { sampleValues with
      KubeConfig := "apiVersion: v1", APIServer := "", Token := "" } "kubeconfig")
    sampleWorld (by decide) (by decide)

/-- C4: in templated mode with `APIServer` and `Token` present and an empty
`ServiceAccount`, the instance `Prepare` returns has `ServiceAccount` equal to "helm"
(and its other values untouched), whether the template load and the file open succeed or
fail; and when `Prepare` succeeds, the values `Execute` hands to the template are these. -/
theorem Prepare_defaults_ServiceAccount {T : Type} (eng : TemplateEngine T) (i : InitKube T)
    (w : World) (hk : i.values.KubeConfig = "") (ha : i.values.APIServer ≠ "")
    (ht : i.values.Token ≠ "") (hs : i.values.ServiceAccount = "") :
    (Prepare eng i w).2.1.values.ServiceAccount = "helm" ∧
      (Prepare eng i w).2.1.values = { i.values with ServiceAccount := "helm" } ∧
      ∀ i' w', Prepare eng i w = (none, i', w') →
        Call.templateExecute (.fd i.configFilename) { i.values with ServiceAccount := "helm" }
          ∈ (Execute eng i' w').2.2.calls := by
  have hv : (Prepare eng i w).2.1.values = { i.values with ServiceAccount := "helm" } := by
    rw [Prepare_templated_values eng i w hk ha ht]
    simp [defaultServiceAccount, hs]
  refine ⟨by rw [hv], hv, ?_⟩
  intro i' w' hp
  obtain ⟨_, _, t, fs5, _, _, hi, _, _⟩ := Prepare_templated_ok eng i i' w w' hk hp
  have hv' : i'.values = { i.values with ServiceAccount := "helm" } := by
    rw [← hv, hp]
  have hk' : i'.values.KubeConfig = "" := by rw [hv']; exact hk
  rw [Execute_templated eng i' w' t (.fd i.configFilename) hk' (by rw [hi]) (by rw [hi])]
  simp [hv']

theorem Prepare_defaults_ServiceAccount_witness :
    (Prepare sampleEngine (sampleStep sampleValues "bad/config")
        { sampleWorld with fs := sampleFS.put "bad/config" .dir }).2.1.values.ServiceAccount
      = "helm" :=
  (Prepare_defaults_ServiceAccount sampleEngine (sampleStep sampleValues "bad/config")
    { sampleWorld with fs := sampleFS.put "bad/config" .dir }
    rfl (by decide) (by decide) rfl).1

/-- C7: in templated mode with `APIServer` and `Token` present, `Prepare` returns nil
exactly when `template.ParseFiles` on the template file and `os.Create` on the
destination both succeed. When parsing fails with cause `e`, the error is
"could not load kubeconfig template: " followed by the message of `e`, it wraps `e`, the
file system is untouched and no `os.Create` has been called. When parsing succeeds and
the create fails with cause `e`, the error is
"could not open kubeconfig file for writing: " followed by the message of `e`, wrapping `e`. -/
theorem Prepare_templated_outcome {T : Type} (eng : TemplateEngine T) (i : InitKube T)
    (w : World) (hk : i.values.KubeConfig = "") (ha : i.values.APIServer ≠ "")
    (ht : i.values.Token ≠ "") :
    ((Prepare eng i w).1 = none ↔
        (∃ t, templateParseFiles eng w.fs i.templateFilename = .ok t) ∧
          ∃ fs1, osCreate w.fs i.configFilename = .ok fs1) ∧
      (∀ e, templateParseFiles eng w.fs i.templateFilename = .error e →
        ∃ err, (Prepare eng i w).1 = some err ∧
          err.Error = "could not load kubeconfig template: " ++ e.Error ∧
          err.Unwrap = some e ∧
          (Prepare eng i w).2.2.fs = w.fs ∧
          ∀ name, Call.create name ∈ (Prepare eng i w).2.2.calls → Call.create name ∈ w.calls) ∧
      (∀ t e, templateParseFiles eng w.fs i.templateFilename = .ok t →
        osCreate w.fs i.configFilename = .error e →
        ∃ err, (Prepare eng i w).1 = some err ∧
          err.Error = "could not open kubeconfig file for writing: " ++ e.Error ∧
          err.Unwrap = some e) := by
  refine ⟨?_, ?_, ?_⟩
  · cases hparse : templateParseFiles eng w.fs i.templateFilename with
    | error e =>
      rw [(Prepare_templated_parse_error eng i w e hk ha ht hparse).1]
      simp
    | ok t =>
      rw [Prepare_templated_create eng i w t hk ha ht hparse]
      cases osCreate w.fs i.configFilename <;> simp
  · intro e hparse
    obtain ⟨h1, h2, h3⟩ := Prepare_templated_parse_error eng i w e hk ha ht hparse
    refine ⟨_, h1, rfl, rfl, h2, ?_⟩
    intro name hmem
    rw [h3] at hmem
    by_cases hd : i.config.debug = true <;> simpa [hd] using hmem
  · intro t e hparse hcreate
    refine ⟨.wrapError "could not open kubeconfig file for writing: " e, ?_, rfl, rfl⟩
    rw [Prepare_templated_create eng i w t hk ha ht hparse, hcreate]

theorem Prepare_templated_outcome_witness :
    ∃ err, (Prepare sampleEngine (sampleStep sampleValues "/ro/config") sampleWorld).1 = some err ∧
      err.Error = "could not open kubeconfig file for writing: " ++
        (GoError.errorString "open /ro/config: permission denied").Error ∧
      err.Unwrap = some (.errorString "open /ro/config: permission denied") :=
  (Prepare_templated_outcome sampleEngine (sampleStep sampleValues "/ro/config") sampleWorld
    rfl (by decide) (by decide)).2.2 "server: "
    (.errorString "open /ro/config: permission denied") rfl rfl

/-- C8: in templated mode, after a successful `Prepare`, the instance holds the parsed
template and the file `Prepare` opened with `os.Create`; `Execute` renders the template
against the values of the instance into that file, returns exactly the result of the
rendering (nil or the rendering error, never the error of `Close`), and calls `Close` on
that file exactly once, whatever the rendering returned. -/
theorem Execute_renders_and_closes_once {T : Type} (eng : TemplateEngine T)
    (i i' : InitKube T) (w w' : World) (hk : i.values.KubeConfig = "")
    (hp : Prepare eng i w = (none, i', w')) :
    ∃ t, i'.template = some t ∧ i'.configFile = some (.fd i.configFilename) ∧
      Call.create i.configFilename ∈ w'.calls ∧
      (Execute eng i' w').1
        = .ret (templateExecute eng w'.fs t (.fd i.configFilename) i'.values).2 ∧
      (Execute eng i' w').2.2.fs
        = (templateExecute eng w'.fs t (.fd i.configFilename) i'.values).1 ∧
      Call.templateExecute (.fd i.configFilename) i'.values ∈ (Execute eng i' w').2.2.calls ∧
      (Execute eng i' w').2.2.calls.count (Call.close (.fd i.configFilename))
        = w'.calls.count (Call.close (.fd i.configFilename)) + 1 := by
  obtain ⟨_, _, t, fs5, _, _, hi, _, cs, hcs, _, _⟩ := Prepare_templated_ok eng i i' w w' hk hp
  have hk' : i'.values.KubeConfig = "" := by rw [hi]; simpa using hk
  have ht : i'.template = some t := by rw [hi]
  have hf : i'.configFile = some (.fd i.configFilename) := by rw [hi]
  refine ⟨t, ht, hf, by simp [hcs], ?_⟩
  rw [Execute_templated eng i' w' t (.fd i.configFilename) hk' ht hf]
  refine ⟨rfl, rfl, by simp, ?_⟩
  by_cases hd : i'.config.debug = true <;> simp [hd, List.count_cons]

theorem Execute_renders_and_closes_once_witness :
    ∃ t, (Prepare sampleEngine (sampleStep sampleValues "config") sampleWorld).2.1.template
        = some t ∧
      (Prepare sampleEngine (sampleStep sampleValues "config") sampleWorld).2.1.configFile
        = some (.fd (sampleStep sampleValues "config").configFilename) ∧
      Call.create (sampleStep sampleValues "config").configFilename
        ∈ (Prepare sampleEngine (sampleStep sampleValues "config") sampleWorld).2.2.calls ∧
      (Execute sampleEngine
          (Prepare sampleEngine (sampleStep sampleValues "config") sampleWorld).2.1
          (Prepare sampleEngine (sampleStep sampleValues "config") sampleWorld).2.2).1
        = .ret (templateExecute sampleEngine
            (Prepare sampleEngine (sampleStep sampleValues "config") sampleWorld).2.2.fs t
            (.fd (sampleStep sampleValues "config").configFilename)
            (Prepare sampleEngine (sampleStep sampleValues "config") sampleWorld).2.1.values).2 ∧
      (Execute sampleEngine
          (Prepare sampleEngine (sampleStep sampleValues "config") sampleWorld).2.1
          (Prepare sampleEngine (sampleStep sampleValues "config") sampleWorld).2.2).2.2.fs
        = (templateExecute sampleEngine
            (Prepare sampleEngine (sampleStep sampleValues "config") sampleWorld).2.2.fs t
            (.fd (sampleStep sampleValues "config").configFilename)
            (Prepare sampleEngine (sampleStep sampleValues "config") sampleWorld).2.1.values).1 ∧
      Call.templateExecute (.fd (sampleStep sampleValues "config").configFilename)
          (Prepare sampleEngine (sampleStep sampleValues "config") sampleWorld).2.1.values
        ∈ (Execute sampleEngine
          (Prepare sampleEngine (sampleStep sampleValues "config") sampleWorld).2.1
          (Prepare sampleEngine (sampleStep sampleValues "config") sampleWorld).2.2).2.2.calls ∧
      (Execute sampleEngine
          (Prepare sampleEngine (sampleStep sampleValues "config") sampleWorld).2.1
          (Prepare sampleEngine (sampleStep sampleValues "config") sampleWorld).2.2).2.2.calls.count
          (Call.close (.fd (sampleStep sampleValues "config").configFilename))
        = (Prepare sampleEngine (sampleStep sampleValues "config") sampleWorld).2.2.calls.count
          (Call.close (.fd (sampleStep sampleValues "config").configFilename)) + 1 :=
  Execute_renders_and_closes_once sampleEngine (sampleStep sampleValues "config") _ sampleWorld _
    rfl rfl

/-- C9, the code at the failing input: an instance in literal mode whose debug flag is
off, in a world where nothing has been written to the diagnostics stream. `Prepare`
writes one line to it. -/
theorem Prepare_literal_prints_without_debug :
    (sampleStep { sampleValues with KubeConfig := "apiVersion: v1" } "kubeconfig").config.debug
        = false ∧
      sampleWorld.stderr = [] ∧
      (Prepare sampleEngine
        (sampleStep { sampleValues with KubeConfig := "apiVersion: v1" } "kubeconfig")
        sampleWorld).2.2.stderr
        = ["Kubeconfig is present and then will be written in kubeconfig\n"] := by
  refine ⟨rfl, rfl, by decide⟩

/-- C10: neither operation changes `KubeConfig`, `APIServer` or `Token`: `Prepare` leaves
the values as they were or only turns an empty `ServiceAccount` into "helm", and
`Execute` returns the instance as it was. After a successful `Prepare` exactly one mode
holds: literal (`KubeConfig` non-empty, `template` and `configFile` left as they were,
which is unset on an instance built by `NewInitKube`) or templated (`KubeConfig` empty,
`APIServer` and `Token` non-empty, `template` and `configFile` set). `Execute` then takes
the branch of that mode: in literal mode it calls `os.WriteFile` and renders nothing, in
templated mode it renders the template and calls no `os.WriteFile`. -/
theorem mode_decided_once {T : Type} (eng : TemplateEngine T) (i i' : InitKube T)
    (w w' : World) (hp : Prepare eng i w = (none, i', w')) :
    (∀ (j : InitKube T) (v : World),
        (Prepare eng j v).2.1.values.KubeConfig = j.values.KubeConfig ∧
        (Prepare eng j v).2.1.values.APIServer = j.values.APIServer ∧
        (Prepare eng j v).2.1.values.Token = j.values.Token ∧
        ((Prepare eng j v).2.1.values = j.values ∨
          (j.values.ServiceAccount = "" ∧
            (Prepare eng j v).2.1.values = { j.values with ServiceAccount := "helm" })) ∧
        (Execute eng j v).2.1 = j) ∧
      Xor' (i'.values.KubeConfig ≠ "" ∧ i'.template = i.template ∧ i'.configFile = i.configFile)
        (i'.values.KubeConfig = "" ∧ i'.values.APIServer ≠ "" ∧ i'.values.Token ≠ "" ∧
          i'.template.isSome ∧ i'.configFile.isSome) ∧
      (∀ (newConfig : envConfig → config) (cfg : envConfig) (templateFile configFile : String),
        i = NewInitKube newConfig cfg templateFile configFile → i'.values.KubeConfig ≠ "" →
        i'.template = none ∧ i'.configFile = none) ∧
      (i'.values.KubeConfig ≠ "" →
        Call.writeFile i'.configFilename i'.values.KubeConfig ∈ (Execute eng i' w').2.2.calls ∧
        ∀ f v, Call.templateExecute f v ∈ (Execute eng i' w').2.2.calls →
          Call.templateExecute f v ∈ w'.calls) ∧
      (i'.values.KubeConfig = "" →
        (∃ f, i'.configFile = some f ∧
          Call.templateExecute f i'.values ∈ (Execute eng i' w').2.2.calls) ∧
        ∀ name data, Call.writeFile name data ∈ (Execute eng i' w').2.2.calls →
          Call.writeFile name data ∈ w'.calls) := by
  have hvals : ∀ (j : InitKube T) (v : World),
      (Prepare eng j v).2.1.values.KubeConfig = j.values.KubeConfig ∧
      (Prepare eng j v).2.1.values.APIServer = j.values.APIServer ∧
      (Prepare eng j v).2.1.values.Token = j.values.Token ∧
      ((Prepare eng j v).2.1.values = j.values ∨
        (j.values.ServiceAccount = "" ∧
          (Prepare eng j v).2.1.values = { j.values with ServiceAccount := "helm" })) ∧
      (Execute eng j v).2.1 = j := by
    intro j v
    have hc := Prepare_values_cases eng j v
    refine ⟨?_, ?_, ?_, hc, Execute_instance eng j v⟩ <;>
      rcases hc with h | ⟨_, h⟩ <;> rw [h]
  have hi' : i' = (Prepare eng i w).2.1 := by rw [hp]
  have hkc : i'.values.KubeConfig = i.values.KubeConfig := by rw [hi']; exact (hvals i w).1
  refine ⟨hvals, ?_⟩
  by_cases hk : i.values.KubeConfig = ""
  · obtain ⟨ha, ht, t, fs5, _, _, hi, _, _⟩ := Prepare_templated_ok eng i i' w w' hk hp
    have hk' : i'.values.KubeConfig = "" := hkc.trans hk
    have ha' : i'.values.APIServer ≠ "" := by
      rw [hi', (hvals i w).2.1]; exact ha
    have ht' : i'.values.Token ≠ "" := by
      rw [hi', (hvals i w).2.2.1]; exact ht
    have htm : i'.template = some t := by rw [hi]
    have hf : i'.configFile = some (.fd i.configFilename) := by rw [hi]
    refine ⟨Or.inr ⟨⟨hk', ha', ht', by simp [htm], by simp [hf]⟩, fun h => h.1 hk'⟩, ?_,
      fun h => absurd hk' h, fun _ => ?_⟩
    · intro _ _ _ _ _ h
      exact absurd hk' h
    · rw [Execute_templated eng i' w' t (.fd i.configFilename) hk' htm hf]
      refine ⟨⟨_, hf, by simp⟩, ?_⟩
      intro name data hmem
      by_cases hd : i'.config.debug = true <;> simpa [hd] using hmem
  · have hk' : i'.values.KubeConfig ≠ "" := by rw [hkc]; exact hk
    have hlit := Prepare_literal eng i w hk
    rw [hp] at hlit
    have hi : i' = i := by simpa using congrArg (fun r => r.2.1) hlit
    refine ⟨Or.inl ⟨⟨hk', by rw [hi], by rw [hi]⟩, fun h => hk' h.1⟩, ?_, fun _ => ?_,
      fun h => absurd h hk'⟩
    · intro newConfig cfg templateFile configFile hnew _
      rw [hi, hnew]
      exact ⟨rfl, rfl⟩
    · rw [Execute_literal eng i' w' hk']
      refine ⟨by simp, ?_⟩
      intro f v hmem
      by_cases hd : i'.config.debug = true <;> simpa [hd] using hmem

theorem mode_decided_once_witness :
    Xor'
      ((sampleStep { sampleValues with KubeConfig := "apiVersion: v1" } "kubeconfig").values.KubeConfig
          ≠ "" ∧
        (sampleStep { sampleValues with KubeConfig := "apiVersion: v1" } "kubeconfig").template
          = (sampleStep { sampleValues with KubeConfig := "apiVersion: v1" } "kubeconfig").template ∧
        (sampleStep { sampleValues with KubeConfig := "apiVersion: v1" } "kubeconfig").configFile
          = (sampleStep { sampleValues with KubeConfig := "apiVersion: v1" } "kubeconfig").configFile)
      ((sampleStep { sampleValues with KubeConfig := "apiVersion: v1" } "kubeconfig").values.KubeConfig
          = "" ∧
        (sampleStep { sampleValues with KubeConfig := "apiVersion: v1" } "kubeconfig").values.APIServer
          ≠ "" ∧
        (sampleStep { sampleValues with KubeConfig := "apiVersion: v1" } "kubeconfig").values.Token
          ≠ "" ∧
        (sampleStep { sampleValues with KubeConfig := "apiVersion: v1" } "kubeconfig").template.isSome ∧
        (sampleStep { sampleValues with KubeConfig := "apiVersion: v1" } "kubeconfig").configFile.isSome) :=
  (mode_decided_once sampleEngine
    (sampleStep { sampleValues with KubeConfig := "apiVersion: v1" } "kubeconfig")
    (sampleStep { sampleValues with KubeConfig := "apiVersion: v1" } "kubeconfig")
    sampleWorld
    (sampleWorld.fprint "Kubeconfig is present and then will be written in kubeconfig\n")
    rfl).2.1

end run
